import Mathlib

/-!
Shallow embedding of the Compressor media-transcoding service
(TypeScript sources under `src/`), together with theorems settling the
frozen claims about its specification.

Conventions of the embedding:
* SQL rows become Lean structures; tables become lists.
* Statuses, reasons and patterns stay `String`, exactly as in the source.
* JavaScript truthiness on numbers/strings is made explicit through the
  `jsOrNat` and `jsStrFalsy` helpers.
* The external `minimatch` glob library (a node dependency, not part of
  this repository) is passed in as an oracle `globMatch`.
* The external ffmpeg/ffprobe processes are modelled by their observable
  results (`FfmpegResult`, `VideoMetadata`).
-/

namespace Compressor

/-- JavaScript `a || d` on a nullable number: `null` and `0` are falsy. -/
def jsOrNat (o : Option Nat) (d : Nat) : Nat :=
  match o with
  | none => d
  | some v => if v = 0 then d else v

/-- JavaScript `!s` on a string: only the empty string is falsy. -/
def jsStrFalsy (s : String) : Bool :=
  s = ""

/-- A row of the `libraries` table. -/
structure Library where
  id : Nat
  name : String
  path : String
  enabled : Bool := true
deriving Repr, DecidableEq

/-- A row of the `exclusions` table (`library_id = none` means global). -/
structure Exclusion where
  id : Nat
  library_id : Option Nat
  pattern : String
  type : String
  reason : Option String
deriving Repr, DecidableEq

/-- A row of the `files` table (timestamps reduced to presence flags). -/
structure FileRow where
  id : Nat
  library_id : Nat
  file_path : String
  file_name : String
  original_codec : Option String := none
  original_bitrate : Option Nat := none
  original_size : Option Nat := none
  original_width : Option Nat := none
  original_height : Option Nat := none
  is_hdr : Bool := false
  new_size : Option Nat := none
  status : String
  skip_reason : Option String := none
  error_message : Option String := none
  started_at_set : Bool := false
  completed_at_set : Bool := false
deriving Repr, DecidableEq

/-- Counters of a `stats` / `stats_hourly` row (`total_space_saved` is a
signed JS number in the source, hence `Int`). -/
structure StatsRow where
  total_files_processed : Nat := 0
  total_space_saved : Int := 0
  files_finished : Nat := 0
  files_skipped : Nat := 0
  files_rejected : Nat := 0
  files_errored : Nat := 0
deriving Repr, DecidableEq

/-- A delta passed to `updateTodayStats`; absent keys contribute nothing. -/
structure StatsUpdates where
  total_files_processed : Nat := 0
  total_space_saved : Int := 0
  files_finished : Nat := 0
  files_skipped : Nat := 0
  files_rejected : Nat := 0
  files_errored : Nat := 0
deriving Repr, DecidableEq

/-- The additive counter update of `updateTodayStats` / `updateHourlyStats`
(`col = col + ?` for each supplied key, row created beforehand if absent). -/
def updateTodayStats (s : StatsRow) (u : StatsUpdates) : StatsRow :=
  { total_files_processed := s.total_files_processed + u.total_files_processed
    total_space_saved := s.total_space_saved + u.total_space_saved
    files_finished := s.files_finished + u.files_finished
    files_skipped := s.files_skipped + u.files_skipped
    files_rejected := s.files_rejected + u.files_rejected
    files_errored := s.files_errored + u.files_errored }

/-- Encoding settings read by `buildFfmpegArgs` and the scanner
(`getEncodingSettings`); fractional values are modelled as rationals. -/
structure EncodingSettings where
  scale_4k_to_1080p : Bool := true
  bitrate_factor : ℚ := 1 / 2
  bitrate_cap_1080p : ℚ := 6
  bitrate_cap_720p : ℚ := 3
  bitrate_cap_other : ℚ := 3
  min_file_size_mb : Nat := 500
deriving Repr, DecidableEq

/-- The typed probe record of `services/ffprobe` (`VideoMetadata`). -/
structure VideoMetadata where
  codec : Option String := none
  bitrate : Option Nat := none
  fileSize : Option Nat := none
  width : Option Nat := none
  height : Option Nat := none
  isHdr : Bool := false
  duration : Option Nat := none
  isHevc : Bool := false
  is4k : Bool := false
deriving Repr, DecidableEq

/-- Queue ordering settings (`getQueueSettings`). -/
structure QueueSettings where
  sort_order : String := "bitrate_desc"
  library_priority : String := "alphabetical_asc"
  last_library_id : Option Nat := none
deriving Repr, DecidableEq

/-- The persistent store: the tables the claims touch. -/
structure Store where
  libraries : List Library := []
  files : List FileRow := []
  exclusions : List Exclusion := []
  stats : StatsRow := {}
  queueSettings : QueueSettings := {}
deriving Repr, DecidableEq

/-- `getFileByPath`: `SELECT * FROM files WHERE file_path = ?`. -/
def getFileByPath (filePath : String) (st : Store) : Option FileRow :=
  st.files.find? (fun f => f.file_path = filePath)

/-- `createFile`: row insertion into `files`. -/
def createFile (row : FileRow) (st : Store) : Store :=
  { st with files := row :: st.files }

/-- `getExclusionsByLibrary(libraryId)`: the library's rules together with
the global ones (source order preserved; the SQL has no ORDER BY). -/
def getExclusionsByLibrary (libraryId : Nat) (st : Store) : List Exclusion :=
  st.exclusions.filter (fun e => e.library_id = some libraryId ∨ e.library_id = none)

/-- Character-prefix test standing for JavaScript `String.startsWith`
(structural on the character lists, so proofs can evaluate it). -/
def strStartsWith (s pre : String) : Bool :=
  pre.data.isPrefixOf s.data

/-- Lexicographic character-list comparison standing for SQL text `<`
and ORDER BY on text columns. -/
def strLtList : List Char → List Char → Bool
  | [], [] => false
  | [], _ :: _ => true
  | _ :: _, [] => false
  | a :: as, b :: bs =>
    if a.toNat < b.toNat then true
    else if b.toNat < a.toNat then false
    else strLtList as bs

/-- Text comparison on strings (see `strLtList`). -/
def strLt (a b : String) : Bool :=
  strLtList a.data b.data

/-- Result record of the exclusion evaluator `isExcluded`. -/
structure ExclusionCheck where
  excluded : Bool
  reason : Option String := none
  pattern : Option String := none
  exclusionId : Option Nat := none
deriving Repr, DecidableEq

/-- Loop body of `isExcluded` over the fetched rules. `globMatch path pat`
stands for the external `minimatch(filePath, pattern, { matchBase: true })`
library call. -/
def isExcludedLoop (globMatch : String → String → Bool)
    (filePath : String) (libraryId : Nat) : List Exclusion → ExclusionCheck
  | [] => { excluded := false }
  | e :: rest =>
    if e.library_id ≠ none ∧ e.library_id ≠ some libraryId then
      isExcludedLoop globMatch filePath libraryId rest
    else if e.type = "folder" then
      if strStartsWith filePath e.pattern then
        { excluded := true
          reason := some (e.reason.getD ("Matches folder exclusion: " ++ e.pattern))
          pattern := some e.pattern
          exclusionId := some e.id }
      else isExcludedLoop globMatch filePath libraryId rest
    else if e.type = "pattern" then
      if globMatch filePath e.pattern then
        { excluded := true
          reason := some (e.reason.getD ("Matches pattern exclusion: " ++ e.pattern))
          pattern := some e.pattern
          exclusionId := some e.id }
      else isExcludedLoop globMatch filePath libraryId rest
    else
      isExcludedLoop globMatch filePath libraryId rest

/-- `isExcluded(filePath, libraryId)` from `services/exclusions`. -/
def isExcluded (globMatch : String → String → Bool)
    (filePath : String) (libraryId : Nat) (st : Store) : ExclusionCheck :=
  isExcludedLoop globMatch filePath libraryId (getExclusionsByLibrary libraryId st)

/-- `updateFilesStatusByExclusion` from `db/queries.ts`: for a `folder`
rule, bulk-update of currently queued files whose path starts with the
pattern (SQL `LIKE pattern || '%'`), with the hardcoded skip reason
`'Excluded by folder rule'`; `pattern`-type rules return without changes. -/
def updateFilesStatusByExclusion (pattern : String) (type : String)
    (libraryId : Option Nat) (newStatus : String) (st : Store) : Store :=
  if type = "folder" then
    { st with files := st.files.map (fun f =>
        if strStartsWith f.file_path pattern ∧ f.status = "queued" ∧
            (libraryId = none ∨ libraryId = some f.library_id) then
          { f with status := newStatus, skip_reason := some ("Excluded by folder rule") }
        else f) }
  else
    st

/-- Request body of `POST /api/exclusions`. -/
structure ExclusionCreateReq where
  library_id : Option Nat := none
  pattern : String := ""
  type : String := "folder"
  reason : Option String := none
deriving Repr, DecidableEq

/-- `createExclusion` from `db/queries.ts`. -/
def createExclusion (newId : Nat) (libraryId : Option Nat) (pattern : String)
    (type : String) (reason : Option String) (st : Store) : Store :=
  { st with exclusions := st.exclusions ++
      [{ id := newId, library_id := libraryId, pattern := pattern,
         type := type, reason := reason }] }

/-- The `POST /api/exclusions` handler (`api/routes/exclusions.ts`): after
validating pattern, type and library it calls `createExclusion` and
responds; it performs no operation on the `files` table. -/
def postExclusionsHandler (newId : Nat) (req : ExclusionCreateReq) (st : Store) :
    Store × Nat :=
  if jsStrFalsy req.pattern then
    (st, 400)
  else if req.type ≠ "folder" ∧ req.type ≠ "pattern" then
    (st, 400)
  else if req.library_id ≠ none ∧
      (st.libraries.find? (fun l => some l.id = req.library_id)) = none then
    (st, 400)
  else
    (createExclusion newId req.library_id req.pattern req.type req.reason st, 201)

/-- The `DELETE /api/exclusions/:id` handler: looks the rule up, deletes
the row, responds; it performs no operation on the `files` table. -/
def deleteExclusionHandler (id : Nat) (st : Store) : Store × Nat :=
  match st.exclusions.find? (fun e => e.id = id) with
  | none => (st, 404)
  | some _ =>
    ({ st with exclusions := st.exclusions.filter (fun e => e.id ≠ id) }, 204)

/-- Per-path inputs of the Classifier that come from outside the store:
the stat size and the probe outcome (the external ffprobe tool). -/
structure ClassifyInput where
  fileSize : Nat
  fileName : String
  probe : Except String VideoMetadata
deriving Repr

/-- Outcome of one `processFile` call. -/
inductive ClassifyRes
  | added
  | skipped
  | exists_
deriving Repr, DecidableEq

/-- Decision ladder of `processFile` (`services/scanner`) for a path not
yet in the database, in source order: size floor, exclusion check, probe,
HEVC check, queue. Returns the created row, the scan result, the stats
delta and whether ffprobe was invoked. -/
def classifyNew (globMatch : String → String → Bool)
    (settings : EncodingSettings) (filePath : String) (libraryId : Nat)
    (inp : ClassifyInput) (st : Store) :
    FileRow × ClassifyRes × StatsUpdates × Bool :=
  let minFileSizeBytes := settings.min_file_size_mb * 1024 * 1024
  if inp.fileSize < minFileSizeBytes then
    ({ id := 0, library_id := libraryId, file_path := filePath,
       file_name := inp.fileName, original_size := some inp.fileSize,
       status := "skipped",
       skip_reason := some ("File under " ++ toString settings.min_file_size_mb
         ++ "MB minimum") },
     .skipped, { files_skipped := 1 }, false)
  else
    let check := isExcluded globMatch filePath libraryId st
    if check.excluded then
      ({ id := 0, library_id := libraryId, file_path := filePath,
         file_name := inp.fileName, original_size := some inp.fileSize,
         status := "excluded", skip_reason := check.reason },
       .skipped, {}, false)
    else
      match inp.probe with
      | .error msg =>
        ({ id := 0, library_id := libraryId, file_path := filePath,
           file_name := inp.fileName, original_size := some inp.fileSize,
           status := "errored",
           error_message := some ("Failed to probe: " ++ msg) },
         .skipped, { files_errored := 1 }, true)
      | .ok metadata =>
        if metadata.isHevc then
          ({ id := 0, library_id := libraryId, file_path := filePath,
             file_name := inp.fileName, original_codec := metadata.codec,
             original_bitrate := metadata.bitrate,
             original_size := some inp.fileSize,
             original_width := metadata.width,
             original_height := metadata.height, is_hdr := metadata.isHdr,
             status := "skipped", skip_reason := some ("Already HEVC") },
           .skipped, { files_skipped := 1 }, true)
        else
          ({ id := 0, library_id := libraryId, file_path := filePath,
             file_name := inp.fileName, original_codec := metadata.codec,
             original_bitrate := metadata.bitrate,
             original_size := some inp.fileSize,
             original_width := metadata.width,
             original_height := metadata.height, is_hdr := metadata.isHdr,
             status := "queued" },
           .added, {}, true)

/-- `processFile(filePath, libraryId)` of `services/scanner`: a no-op when
a row already exists for the path; otherwise the decision ladder runs,
the row is inserted and `updateTodayStats` applied. The last component
reports whether ffprobe was invoked. -/
def processFile (globMatch : String → String → Bool)
    (settings : EncodingSettings) (filePath : String) (libraryId : Nat)
    (inp : ClassifyInput) (st : Store) : Store × ClassifyRes × Bool :=
  match getFileByPath filePath st with
  | some _ => (st, .exists_, false)
  | none =>
    let r := classifyNew globMatch settings filePath libraryId inp st
    ({ createFile r.1 st with stats := updateTodayStats st.stats r.2.2.1 },
     r.2.1, r.2.2.2)

/-- Insertion of a library into a name-sorted list (`ORDER BY l.name ASC`). -/
def insertByName (x : Library) : List Library → List Library
  | [] => [x]
  | l :: rest =>
    if strLt x.name l.name then x :: l :: rest else l :: insertByName x rest

/-- Name-sorting of a library list (`ORDER BY l.name ASC`). -/
def sortLibrariesByName (ls : List Library) : List Library :=
  ls.foldr insertByName []

/-- File comparison realizing the `ORDER BY` clause chosen from
`queue_sort_order` (`f` sorts no later than `g`). `NULLS LAST` applies to
the bitrate orders; the SQL `RANDOM()` order is nondeterministic and is
modelled by the stable id order (no claim depends on it). -/
def fileSortLe (sortOrder : String) (f g : FileRow) : Bool :=
  if sortOrder = "bitrate_asc" then
    match f.original_bitrate, g.original_bitrate with
    | some a, some b => a ≤ b
    | some _, none => true
    | none, some _ => false
    | none, none => true
  else if sortOrder = "alphabetical" then
    strLt f.file_name g.file_name ∨ f.file_name = g.file_name
  else if sortOrder = "random" then
    f.id ≤ g.id
  else -- "bitrate_desc" and the default case
    match f.original_bitrate, g.original_bitrate with
    | some a, some b => b ≤ a
    | some _, none => true
    | none, some _ => false
    | none, none => true

/-- `ORDER BY ... LIMIT 1`: first row under the order (earlier row wins ties). -/
def firstByOrder (le : FileRow → FileRow → Bool) : List FileRow → Option FileRow
  | [] => none
  | f :: rest => some (rest.foldl (fun acc g => if le acc g then acc else g) f)

/-- `getNextQueuedFile` from `db/queries.ts`. Round-robin: the libraries
holding queued files are name-ordered; the pick serves the successor of
`last_library_id` (the first library when it is null or absent —
JavaScript `findIndex` yields `-1` and `(-1 + 1) % n = 0`); the first
queued file of that library under the file sort is returned. Otherwise a
single combined `ORDER BY <library name>, <file sort>` is used. -/
def getNextQueuedFile (st : Store) : Option FileRow :=
  let settings := st.queueSettings
  if settings.library_priority = "round_robin" then
    let librariesWithQueue := sortLibrariesByName (st.libraries.filter (fun l =>
      st.files.any (fun f => f.status = "queued" ∧ f.library_id = l.id)))
    match librariesWithQueue with
    | [] => none
    | l0 :: _ =>
      let nextLibraryId :=
        match settings.last_library_id with
        | none => l0.id
        | some last =>
          match librariesWithQueue.findIdx? (fun l => l.id = last) with
          | none => l0.id
          | some i =>
            (((librariesWithQueue.get? ((i + 1) % librariesWithQueue.length)).getD l0).id)
      firstByOrder (fileSortLe settings.sort_order)
        (st.files.filter (fun f => f.status = "queued" ∧ f.library_id = nextLibraryId))
  else
    let libName : Nat → String := fun lid =>
      (((st.libraries.find? (fun l => l.id = lid)).map Library.name).getD (""))
    let asc := settings.library_priority ≠ "alphabetical_desc"
    firstByOrder (fun f g =>
      let nf := libName f.library_id
      let ng := libName g.library_id
      if nf = ng then fileSortLe settings.sort_order f g
      else if asc then strLt nf ng else strLt ng nf)
      (st.files.filter (fun f => f.status = "queued" ∧
        (st.libraries.any (fun l => l.id = f.library_id))))

/-- `updateLastLibraryId` from `db/queries.ts`. The function is defined
and exported there but has no caller anywhere in the repository — in
particular `workerLoop` never invokes it after an encode finishes. -/
def updateLastLibraryId (libraryId : Option Nat) (st : Store) : Store :=
  { st with queueSettings := { st.queueSettings with last_library_id := libraryId } }

/-- Status update applied to one file row by id (`updateFile`). -/
def setFileStatus (id : Nat) (status : String) (st : Store) : Store :=
  { st with files := st.files.map (fun f =>
      if f.id = id then { f with status := status } else f) }

/-- One `workerLoop` iteration in which the picked file reaches a terminal
status (here `finished`). The loop mutates no queue setting: in
particular `last_library_id` keeps its previous value. -/
def workerFinishCycle (st : Store) : Store × Option FileRow :=
  match getNextQueuedFile st with
  | none => (st, none)
  | some f => (setFileStatus f.id ("finished") st, some f)

/-- Observable result of one external ffmpeg run, as resolved by
`runFfmpeg` (exit 0, non-zero exit, or SIGTERM after cancellation). -/
inductive FfmpegResult
  | success
  | failed
  | cancelled
deriving Repr, DecidableEq

/-- The string value `runFfmpeg`'s promise resolves to. -/
def ffmpegResultStr : FfmpegResult → String
  | .success => "success"
  | .failed => "failed"
  | .cancelled => "cancelled"

/-- `cancelCurrentEncoding`: returns true iff an ffmpeg process is
currently running (and then signals it with SIGTERM). -/
def cancelCurrentEncoding (processRunning : Bool) : Bool :=
  processRunning

/-- Statuses admitted by the `files` table CHECK constraint of migration 1
(`db/migrations.ts`); no later migration alters it. -/
def filesStatusCheck : List String :=
  ["queued", "encoding", "finished", "skipped", "excluded", "errored", "rejected"]

/-- Whether an `UPDATE files SET status = s` passes the CHECK constraint. -/
def persistStatusOk (s : String) : Bool :=
  filesStatusCheck.contains s

/-- External-world script of one `encodeFile` run: result of the first
(hardware-decode) ffmpeg attempt, result of the CPU-decode attempt (used
only when the first failed), and the stat size of the produced output. -/
structure EncodeScript where
  attempt1 : FfmpegResult
  attempt2 : FfmpegResult := .failed
  outputSize : Nat := 0
deriving Repr, DecidableEq

/-- Observable effect of one `encodeFile` run on the store and scratch. -/
structure EncodeEffect where
  finalStatus : String
  newSizeSet : Option Nat := none
  errorMessageSet : Bool := false
  completedAtSet : Bool := true
  statsDelta : StatsUpdates := {}
  scratchDeleted : Bool := true
  replacedOriginal : Bool := false
  usedCpuFallback : Bool := false
deriving Repr, DecidableEq

/-- Persistence of a terminal outcome through `updateFile`. When the
intended status violates the `files` CHECK constraint, `better-sqlite3`
throws; `encodeFile`'s surrounding catch block then cleans up scratch,
persists `status = 'errored'` with the error message, and accounts
`total_files_processed` and `files_errored`. -/
def persistTerminal (intended : EncodeEffect) : EncodeEffect :=
  if persistStatusOk intended.finalStatus then intended
  else
    { finalStatus := "errored"
      newSizeSet := none
      errorMessageSet := true
      completedAtSet := true
      statsDelta := { total_files_processed := 1, files_errored := 1 }
      scratchDeleted := true
      replacedOriginal := intended.replacedOriginal
      usedCpuFallback := intended.usedCpuFallback }

/-- The transcode pipeline `encodeFile` (`services/encoder`): hardware
attempt, CPU-decode retry on failure, cancellation observation, size
comparison against `file.original_size || 0`, safe replace on shrink,
rejection otherwise; each terminal write goes through `persistTerminal`. -/
def encodeFile (file : FileRow) (script : EncodeScript) : EncodeEffect :=
  let originalSize := jsOrNat file.original_size 0
  if script.attempt1 = .cancelled then
    persistTerminal { finalStatus := "cancelled", statsDelta := {} }
  else
    let usedCpu := script.attempt1 = .failed
    let result := if usedCpu then script.attempt2 else script.attempt1
    if result = .cancelled then
      persistTerminal
        { finalStatus := "cancelled", usedCpuFallback := usedCpu, statsDelta := {} }
    else if result = .failed then
      persistTerminal
        { finalStatus := "errored", errorMessageSet := true,
          statsDelta := { total_files_processed := 1, files_errored := 1 },
          usedCpuFallback := usedCpu }
    else
      let outputSize := script.outputSize
      if outputSize ≥ originalSize then
        persistTerminal
          { finalStatus := "rejected",
            newSizeSet := some outputSize,
            statsDelta := { total_files_processed := 1, files_rejected := 1 },
            usedCpuFallback := usedCpu }
      else
        persistTerminal
          { finalStatus := "finished",
            newSizeSet := some outputSize,
            statsDelta :=
              { total_files_processed := 1,
                total_space_saved := (originalSize : Int) - (outputSize : Int),
                files_finished := 1 },
            replacedOriginal := true,
            usedCpuFallback := usedCpu }

/-- Process-level configuration values read by `buildFfmpegArgs`
(`config.ts` defaults). -/
structure EncoderConfig where
  nvencPreset : String := "p4"
  crfFallback : Nat := 24
  maxBitrateFallback : String := "8M"
  bufSizeFallback : String := "16M"
deriving Repr, DecidableEq

/-- The `-b:v` value computed by `buildFfmpegArgs` when the probed bitrate
`b` is truthy: `Math.floor(bitrate * bitrate_factor)` followed by the
resolution-based cap ladder (caps converted from Mbps to bps), with the
height defaulting to 1080 via `metadata.height || 1080`. -/
def computeTargetBitrate (metadata : VideoMetadata) (settings : EncodingSettings)
    (b : Nat) : ℚ :=
  let target : Int := ⌊(b : ℚ) * settings.bitrate_factor⌋
  let cap1080p : ℚ := settings.bitrate_cap_1080p * 1000000
  let cap720p : ℚ := settings.bitrate_cap_720p * 1000000
  let capOther : ℚ := settings.bitrate_cap_other * 1000000
  let height := jsOrNat metadata.height 1080
  let cap : ℚ :=
    if metadata.is4k ∧ settings.scale_4k_to_1080p then cap1080p
    else if height > 1080 then cap1080p
    else if height > 720 then cap1080p
    else if height ≤ 720 then cap720p
    else capOther
  if (target : ℚ) > cap then cap else (target : ℚ)

/-- The video filter chain assembled by `buildFfmpegArgs` (4K downscale,
HDR→SDR tonemap, GPU download when both apply under hardware decode). -/
def buildFilterChain (metadata : VideoMetadata) (settings : EncodingSettings)
    (useHwDecode : Bool) : List String :=
  let scaleFilters :=
    if metadata.is4k ∧ settings.scale_4k_to_1080p then
      if useHwDecode then ["scale_cuda=1920:1080:force_original_aspect_ratio=decrease"]
      else ["scale=1920:1080:force_original_aspect_ratio=decrease"]
    else []
  let hdrFilters :=
    if metadata.isHdr then
      (if useHwDecode ∧ metadata.is4k ∧ settings.scale_4k_to_1080p then
        ["hwdownload", "format=nv12"] else []) ++
      ["zscale=t=linear:npl=100,format=gbrpf32le,zscale=p=bt709,tonemap=tonemap=hable:desat=0,zscale=t=bt709:m=bt709:r=tv,format=yuv420p"]
    else []
  scaleFilters ++ hdrFilters

/-- `buildFfmpegArgs` of `services/encoder`: the full argument vector for
one transcoder invocation (pure in its inputs). -/
def buildFfmpegArgs (cfg : EncoderConfig) (inputPath outputPath : String)
    (metadata : VideoMetadata) (useHwDecode : Bool)
    (settings : EncodingSettings) : List String :=
  (if useHwDecode then ["-hwaccel", "cuda", "-hwaccel_output_format", "cuda"] else [])
  ++ ["-i", inputPath]
  ++ (let filters := buildFilterChain metadata settings useHwDecode
      if filters ≠ [] then ["-vf", String.intercalate (",") filters] else [])
  ++ ["-c:v", "hevc_nvenc", "-preset", cfg.nvencPreset]
  ++ (match metadata.bitrate with
      | some b =>
        if b = 0 then
          ["-cq", toString cfg.crfFallback, "-maxrate", cfg.maxBitrateFallback,
           "-bufsize", cfg.bufSizeFallback]
        else
          ["-b:v", toString (computeTargetBitrate metadata settings b)]
      | none =>
        ["-cq", toString cfg.crfFallback, "-maxrate", cfg.maxBitrateFallback,
         "-bufsize", cfg.bufSizeFallback])
  ++ ["-c:a", "copy", "-c:s", "copy", "-map", "0", "-y", outputPath]

/-- Modelled from the spec's words for claim C5 only: the cap that the
claim assigns to a resolution — `bitrate_cap_1080p` for 1080p-or-higher
content (and 4K being downscaled), `bitrate_cap_720p` for 720p-or-below,
and `bitrate_cap_other` for every other resolution. -/
def claimC5Cap (metadata : VideoMetadata) (settings : EncodingSettings) : ℚ :=
  let height := jsOrNat metadata.height 1080
  if (metadata.is4k ∧ settings.scale_4k_to_1080p) ∨ height ≥ 1080 then
    settings.bitrate_cap_1080p * 1000000
  else if height ≤ 720 then settings.bitrate_cap_720p * 1000000
  else settings.bitrate_cap_other * 1000000

/-- Modelled from the spec's words for claim C5 only: the target bitrate
the claim prescribes — `floor(bitrate * bitrate_factor)` capped by
`claimC5Cap`. -/
def claimC5Target (metadata : VideoMetadata) (settings : EncodingSettings)
    (b : Nat) : ℚ :=
  min ((⌊(b : ℚ) * settings.bitrate_factor⌋ : Int) : ℚ)
    (claimC5Cap metadata settings)

/-- Observable control flow of one `testEncodeFile` run
(`services/encoder`): whether the CPU-decode retry ran, whether the
`FFmpeg encoding failed` error was thrown, and whether control fell
through to reading the output's size. In the source, `runFfmpeg` resolves
to the strings processed by `ffmpegResultStr`, and `testEncodeFile`
branches on `if (!success)` — JavaScript string falsiness. -/
structure TestEncodeEffect where
  cpuRetryAttempted : Bool
  threwEncodingFailed : Bool
  proceededToOutputStat : Bool
deriving Repr, DecidableEq

/-- Control flow of `testEncodeFile` over the two possible ffmpeg
attempts, as written in the source: `let success = await runFfmpeg(...)`,
`if (!success) { ...retry... }`, `if (!success) throw ...`. -/
def testEncodeFile (attempt1 attempt2 : FfmpegResult) : TestEncodeEffect :=
  let success1 := ffmpegResultStr attempt1
  let retried := jsStrFalsy success1
  let success2 := if retried then ffmpegResultStr attempt2 else success1
  let threw := jsStrFalsy success2
  { cpuRetryAttempted := retried
    threwEncodingFailed := threw
    proceededToOutputStat := !threw }

/-- One stats-relevant event of the running system: the three scan-time
classifications that call `updateTodayStats` (`processFile`), or one full
encoder pipeline run. -/
inductive StatEvent
  | scanSkipSmall
  | scanProbeError
  | scanSkipHevc
  | encodeRun (file : FileRow) (script : EncodeScript)

/-- The `updateTodayStats` delta each event produces at its call site. -/
def statEventDelta : StatEvent → StatsUpdates
  | .scanSkipSmall => { files_skipped := 1 }
  | .scanProbeError => { files_errored := 1 }
  | .scanSkipHevc => { files_skipped := 1 }
  | .encodeRun f s => (encodeFile f s).statsDelta

/-- Day counters after a sequence of events, starting from the freshly
created all-zero row. -/
def applyStatEvents (evts : List StatEvent) : StatsRow :=
  evts.foldl (fun acc e => updateTodayStats acc (statEventDelta e)) {}

/-- Whether an event is an encoder pipeline run. -/
def isEncodeRun : StatEvent → Bool
  | .encodeRun _ _ => true
  | _ => false

/-- The terminal status an encoder-run event persists (none for scan events). -/
def eventFinalStatus : StatEvent → Option String
  | .encodeRun f s => some (encodeFile f s).finalStatus
  | _ => none

/-- Space saved accounted for an event: nonzero only for a pipeline run
that finishes, where it is `(file.original_size || 0) - outputSize`. -/
def eventSpaceSaved : StatEvent → Int
  | .encodeRun f s =>
    if (encodeFile f s).finalStatus = "finished" then
      (jsOrNat f.original_size 0 : Int) - (s.outputSize : Int)
    else 0
  | _ => 0

/-- Modelled from the spec's words for claim C4 only: whether the claim
counts the event towards `total_files_processed` (it counts `finished`,
`skipped`, `rejected` and `errored` events). -/
def claimC4Counted : StatEvent → Bool
  | .scanSkipSmall => true
  | .scanProbeError => true
  | .scanSkipHevc => true
  | .encodeRun f s =>
    let t := (encodeFile f s).finalStatus
    t = "finished" ∨ t = "skipped" ∨ t = "rejected" ∨ t = "errored"

/-- The status-changing operations of the system, at the granularity of a
single file row's status. -/
inductive FileOp
  | workerStart
  | encodeTerminal (file : FileRow) (script : EncodeScript)
  | manualRetry
  | manualSkip
  | manualExclude
  | resetEncoding
  | exclusionBulk

/-- The status transition each operation performs on a row currently in
status `s` (`none` when the operation rejects or does not touch the row):
`workerLoop` marks picked queued rows `encoding`; `encodeFile` persists
its terminal outcome; the retry route guards on `errored`/`rejected`; the
skip route guards on `queued`; the exclude route has no status guard and
unconditionally writes `excluded`; `resetEncodingFiles` re-queues
`encoding` rows; `updateFilesStatusByExclusion` is invoked (by its only
would-be callers) on `queued` rows with target `excluded`. -/
def opStep : FileOp → String → Option String
  | .workerStart, s => if s = "queued" then some ("encoding") else none
  | .encodeTerminal f sc, s =>
    if s = "encoding" then some (encodeFile f sc).finalStatus else none
  | .manualRetry, s =>
    if s = "errored" ∨ s = "rejected" then some ("queued") else none
  | .manualSkip, s => if s = "queued" then some ("skipped") else none
  | .manualExclude, _ => some ("excluded")
  | .resetEncoding, s => if s = "encoding" then some ("queued") else none
  | .exclusionBulk, s => if s = "queued" then some ("excluded") else none

/-- The transition pairs enumerated in the spec's file status state
machine (section 4.7); everything else is declared invalid there. -/
def specTransitions : List (String × String) :=
  [("queued", "encoding"), ("queued", "excluded"), ("queued", "skipped"),
   ("excluded", "queued"),
   ("encoding", "finished"), ("encoding", "rejected"),
   ("encoding", "errored"), ("encoding", "cancelled"),
   ("errored", "queued"), ("rejected", "queued"),
   ("encoding", "queued")]

/-- Membership in the spec's allowed transition set. -/
def allowedTransition (s t : String) : Bool :=
  specTransitions.contains (s, t)

/-- Glob oracle for scenarios that use no `pattern`-type rule. -/
def noGlob : String → String → Bool := fun _ _ => false

/-- Counted predicate of the amended stats claim: events whose encoder
pipeline run persisted `finished`, `rejected` or `errored`. -/
def isEncoderTerminalCounted (e : StatEvent) : Bool :=
  match eventFinalStatus e with
  | some t => t = "finished" ∨ t = "rejected" ∨ t = "errored"
  | none => false

/-- Example library of the exclusion-retroactivity scenario. -/
def exLibraryM : Library :=
  { id := 1, name := "m", path := "/media/m" }

/-- Example queued file inside the folder the example rule targets. -/
def exFrasierFile : FileRow :=
  { id := 1, library_id := 1, file_path := "/media/m/Frasier/s01e01.mkv",
    file_name := "s01e01.mkv", status := "queued" }

/-- Store state before the example exclusion rule is created. -/
def exStoreC1 : Store :=
  { libraries := [exLibraryM], files := [exFrasierFile] }

/-- The example rule-creation request: a global folder rule covering the
queued file, with no reason. -/
def exReqC1 : ExclusionCreateReq :=
  { library_id := none, pattern := "/media/m/Frasier", type := "folder",
    reason := none }

/-- Store state after `POST /api/exclusions` created the example rule. -/
def exStoreC1After : Store :=
  (postExclusionsHandler 1 exReqC1 exStoreC1).1

/-- Round-robin scenario: library A. -/
def exLibA : Library := { id := 1, name := "A", path := "/media/A" }

/-- Round-robin scenario: library B. -/
def exLibB : Library := { id := 2, name := "B", path := "/media/B" }

/-- Round-robin scenario: the queued files of both libraries. -/
def exFileA1 : FileRow :=
  { id := 1, library_id := 1, file_path := "/media/A/a1.mkv",
    file_name := "a1.mkv", status := "queued" }

/-- Second queued file of library A. -/
def exFileA2 : FileRow :=
  { id := 2, library_id := 1, file_path := "/media/A/a2.mkv",
    file_name := "a2.mkv", status := "queued" }

/-- First queued file of library B. -/
def exFileB1 : FileRow :=
  { id := 3, library_id := 2, file_path := "/media/B/b1.mkv",
    file_name := "b1.mkv", status := "queued" }

/-- Second queued file of library B. -/
def exFileB2 : FileRow :=
  { id := 4, library_id := 2, file_path := "/media/B/b2.mkv",
    file_name := "b2.mkv", status := "queued" }

/-- Round-robin scenario store: two libraries with queued files each,
`library_priority = round_robin`, alphabetical file sort, fresh
`last_library_id` (the migration default `''`, read back as null). -/
def exStoreC2 : Store :=
  { libraries := [exLibA, exLibB],
    files := [exFileA1, exFileA2, exFileB1, exFileB2],
    queueSettings :=
      { sort_order := "alphabetical", library_priority := "round_robin",
        last_library_id := none } }

/-- Example file row under encode for the cancellation scenario. -/
def exEncFile : FileRow :=
  { id := 7, library_id := 1, file_path := "/media/m/c.mkv",
    file_name := "c.mkv", original_size := some 5368709120,
    status := "encoding" }

/-- Example probed metadata with a 900-line frame (neither 1080p-or-higher
nor 720p-or-below) and a 20 Mbps source bitrate. -/
def exMd900 : VideoMetadata :=
  { codec := some ("h264"), bitrate := some 20000000, width := some 1600,
    height := some 900 }

theorem persistStatusOk_cancelled : persistStatusOk ("cancelled") = false := rfl

theorem persistStatusOk_errored : persistStatusOk ("errored") = true := rfl

theorem persistStatusOk_rejected : persistStatusOk ("rejected") = true := rfl

theorem persistStatusOk_finished : persistStatusOk ("finished") = true := rfl

/-- Every `encodeFile` run persists `finished`, `rejected` or `errored`
(never `cancelled`, which the CHECK constraint rejects), accounts exactly
one processed file, and accounts space only for a finished outcome. -/
theorem encodeFile_characterization (f : FileRow) (s : EncodeScript) :
    ((encodeFile f s).finalStatus = "finished" ∨
      (encodeFile f s).finalStatus = "rejected" ∨
      (encodeFile f s).finalStatus = "errored") ∧
    (encodeFile f s).statsDelta.total_files_processed = 1 ∧
    (encodeFile f s).statsDelta.total_space_saved =
      (if (encodeFile f s).finalStatus = "finished"
        then (jsOrNat f.original_size 0 : Int) - (s.outputSize : Int) else 0) := by
  obtain ⟨a1, a2, out⟩ := s
  cases a1 <;> cases a2 <;>
    simp [encodeFile, persistTerminal, persistStatusOk_cancelled,
      persistStatusOk_errored, persistStatusOk_rejected,
      persistStatusOk_finished] <;>
    split <;> simp_all

/-- C1 (counterexample): after `POST /api/exclusions` creates a global
folder rule covering a queued file, the evaluator's rule applies to that
file, yet the file is still `queued` — the handler performs no retroactive
transition to `excluded`, contradicting the claim. -/
theorem exclusion_create_not_retroactive :
    (postExclusionsHandler 1 exReqC1 exStoreC1).2 = 201 ∧
    (isExcluded noGlob ("/media/m/Frasier/s01e01.mkv") 1 exStoreC1After).excluded
      = true ∧
    (getFileByPath ("/media/m/Frasier/s01e01.mkv") exStoreC1After).map
      FileRow.status = some ("queued") := by
  decide

/-- C2 (code evaluation at the failing input): with
`library_priority = round_robin` and libraries A and B both holding
queued files, the first pick serves library A and, after the worker
finishes that file, the second pick serves library A again —
`last_library_id` is still unset because `updateLastLibraryId` has no
caller — where the claim requires the picks to alternate A, B. -/
theorem round_robin_pick_never_advances :
    (workerFinishCycle exStoreC2).2 = some exFileA1 ∧
    (workerFinishCycle exStoreC2).1.queueSettings.last_library_id = none ∧
    (workerFinishCycle (workerFinishCycle exStoreC2).1).2 = some exFileA2 ∧
    exFileA1.library_id = 1 ∧ exFileA2.library_id = 1 ∧ exLibB.id = 2 := by
  decide

/-- C3 (code evaluation at the failing input): `'cancelled'` is not among
the statuses the `files` CHECK constraint admits, so when a cancelled run
tries to persist `status = 'cancelled'` the update throws and the catch
block persists `'errored'` instead, incrementing `total_files_processed`
and `files_errored` — the claim requires status `cancelled` with stats
unchanged. (`cancelCurrentEncoding` itself does return true exactly when
a transcoder process is running.) -/
theorem cancelled_outcome_persists_errored :
    persistStatusOk ("cancelled") = false ∧
    cancelCurrentEncoding true = true ∧
    cancelCurrentEncoding false = false ∧
    encodeFile exEncFile { attempt1 := .cancelled } =
      { finalStatus := "errored", newSizeSet := none, errorMessageSet := true,
        completedAtSet := true,
        statsDelta := { total_files_processed := 1, files_errored := 1 },
        scratchDeleted := true, replacedOriginal := false,
        usedCpuFallback := false } := by
  decide

/-- C4 (counterexample): a single scan-time size-floor skip increments
`files_skipped` but leaves `total_files_processed` at 0, while the claim
counts the skipped event and requires `total_files_processed = 1`. -/
theorem scan_skip_not_counted_processed :
    (applyStatEvents [StatEvent.scanSkipSmall]).total_files_processed = 0 ∧
    (applyStatEvents [StatEvent.scanSkipSmall]).files_skipped = 1 ∧
    List.countP claimC4Counted [StatEvent.scanSkipSmall] = 1 := by
  decide

/-- C5 (counterexample): for 900-line content (neither 1080p-or-higher nor
720p-or-below) with a 20 Mbps bitrate and default settings, the code caps
at `bitrate_cap_1080p` (6 Mbps) while the claim's classification assigns
`bitrate_cap_other` (3 Mbps). -/
theorem bitrate_cap_900p_differs_from_spec :
    computeTargetBitrate exMd900 {} 20000000 = 6000000 ∧
    claimC5Target exMd900 {} 20000000 = 3000000 ∧
    computeTargetBitrate exMd900 {} 20000000 ≠
      claimC5Target exMd900 {} 20000000 := by
  have hfloor : (⌊(20000000 : ℚ) * ((1 : ℚ) / 2)⌋ : ℤ) = 10000000 := by
    norm_num
  have h1 : computeTargetBitrate exMd900 {} 20000000 = 6000000 := by
    unfold computeTargetBitrate exMd900
    simp only [jsOrNat, hfloor]
    norm_num
  have h2 : claimC5Target exMd900 {} 20000000 = 3000000 := by
    unfold claimC5Target claimC5Cap exMd900
    simp only [jsOrNat, hfloor]
    norm_num [min_def]
  refine ⟨h1, h2, ?_⟩
  rw [h1, h2]
  norm_num

/-- C6 (counterexample): the manual exclude route carries no status guard,
so it moves a `finished` file to `excluded` — a source→target pair outside
the spec's transition set. -/
theorem manual_exclude_escapes_closure :
    opStep .manualExclude ("finished") = some ("excluded") ∧
    allowedTransition ("finished") ("excluded") = false := by
  decide

/-- C9 (code evaluation at the failing input): when the first ffmpeg
attempt of `testEncodeFile` fails (resolving to the truthy string
`'failed'`), the `if (!success)` guards never fire: the CPU-decode retry
is not attempted, no `FFmpeg encoding failed` error is thrown, and control
falls through to reading the output size — while `encodeFile`, which the
claim says the operation mirrors, does run its CPU fallback. -/
theorem test_encode_cpu_retry_unreachable :
    testEncodeFile .failed .failed =
      { cpuRetryAttempted := false, threwEncodingFailed := false,
        proceededToOutputStat := true } ∧
    testEncodeFile .failed .success =
      { cpuRetryAttempted := false, threwEncodingFailed := false,
        proceededToOutputStat := true } ∧
    (encodeFile exEncFile { attempt1 := .failed, attempt2 := .failed
      }).usedCpuFallback = true := by
  decide

/-- C1 (amended): creating an exclusion rule through `POST /api/exclusions`
and deleting one through `DELETE /api/exclusions/:id` leave every file row
(and the stats counters) unchanged in all cases — exclusion rules affect
only files classified after the rule exists; no retroactive transition of
`queued` files to `excluded` (or back) is performed, even though the
`updateFilesStatusByExclusion` helper exists for folder rules. -/
theorem exclusion_handlers_files_unchanged (newId id : Nat)
    (req : ExclusionCreateReq) (st : Store) :
    (postExclusionsHandler newId req st).1.files = st.files ∧
    (postExclusionsHandler newId req st).1.stats = st.stats ∧
    (deleteExclusionHandler id st).1.files = st.files ∧
    (deleteExclusionHandler id st).1.stats = st.stats := by
  unfold postExclusionsHandler deleteExclusionHandler createExclusion
  refine ⟨?_, ?_, ?_, ?_⟩ <;> (try split) <;> (try split) <;> (try split) <;> rfl

/-- C10: when the stored `original_size` is null or 0, no run of the
pipeline is ever recorded as `finished`, and every run that produces an
output successfully — whether on the first (hardware-decode) attempt or
on the CPU-decode retry after a failed first attempt — is recorded as
`rejected` with `new_size` set to the output size: the comparison
substitutes 0 for the missing size and every output size is `≥ 0`. -/
theorem missing_original_size_always_rejected (f : FileRow)
    (s : EncodeScript)
    (h : f.original_size = none ∨ f.original_size = some 0) :
    (encodeFile f s).finalStatus ≠ "finished" ∧
    ((s.attempt1 = .success ∨
        (s.attempt1 = .failed ∧ s.attempt2 = .success)) →
      (encodeFile f s).finalStatus = "rejected" ∧
      (encodeFile f s).newSizeSet = some s.outputSize) := by
  have h0 : jsOrNat f.original_size 0 = 0 := by
    rcases h with h | h <;> simp [jsOrNat, h]
  obtain ⟨a1, a2, n⟩ := s
  cases a1 <;> cases a2 <;>
    simp [encodeFile, h0, persistTerminal, persistStatusOk_cancelled,
      persistStatusOk_errored, persistStatusOk_rejected,
      persistStatusOk_finished]

theorem missing_original_size_always_rejected_witness :
    (({ exEncFile with original_size := none } : FileRow).original_size = none ∨
      ({ exEncFile with original_size := none } : FileRow).original_size
        = some 0) ∧
    (encodeFile { exEncFile with original_size := none }
      { attempt1 := .failed, attempt2 := .success, outputSize := 1000
      }).finalStatus ≠ "finished" ∧
    (encodeFile { exEncFile with original_size := none }
      { attempt1 := .failed, attempt2 := .success, outputSize := 1000
      }).finalStatus = "rejected" ∧
    (encodeFile { exEncFile with original_size := none }
      { attempt1 := .failed, attempt2 := .success, outputSize := 1000
      }).newSizeSet = some 1000 :=
  have happ := missing_original_size_always_rejected
    { exEncFile with original_size := none }
    { attempt1 := .failed, attempt2 := .success, outputSize := 1000 }
    (Or.inl rfl)
  ⟨Or.inl rfl, happ.1, (happ.2 (Or.inr ⟨rfl, rfl⟩)).1,
    (happ.2 (Or.inr ⟨rfl, rfl⟩)).2⟩

/-- C5 (amended): for every metadata and settings, the plan's target
bitrate is `floor(bitrate * bitrate_factor)` capped at `bitrate_cap_1080p`
whenever the content is 4K-being-downscaled or its height (defaulted to
1080 when absent) exceeds 720, and at `bitrate_cap_720p` otherwise;
`bitrate_cap_other` is never applied. -/
theorem bitrate_target_cap_amended (md : VideoMetadata)
    (settings : EncodingSettings) (b : Nat) :
    computeTargetBitrate md settings b =
      min ((⌊(b : ℚ) * settings.bitrate_factor⌋ : ℤ) : ℚ)
        ((if (md.is4k = true ∧ settings.scale_4k_to_1080p = true) ∨
            720 < jsOrNat md.height 1080
          then settings.bitrate_cap_1080p else settings.bitrate_cap_720p)
          * 1000000) := by
  simp only [computeTargetBitrate]
  split_ifs <;>
    first
      | omega
      | tauto
      | (simp only [min_def]; split_ifs <;> linarith)

/-- C6 (amended): every status transition performed by the system's
operations stays within the spec's transition set, with the single
exception of the manual exclude route, which moves a file of any status
to `excluded` because it carries no status guard. -/
theorem status_closure_amended (op : FileOp) (s t : String)
    (h : opStep op s = some t) :
    allowedTransition s t = true ∨
      (op = FileOp.manualExclude ∧ t = "excluded") := by
  cases op with
  | workerStart =>
    left
    by_cases hs : s = "queued" <;> simp [opStep, hs] at h
    subst hs; rw [← h]; decide
  | encodeTerminal f sc =>
    left
    by_cases hs : s = "encoding" <;> simp [opStep, hs] at h
    subst hs
    rcases (encodeFile_characterization f sc).1 with hf | hf | hf <;>
      rw [← h, hf] <;> decide
  | manualRetry =>
    left
    by_cases hs : s = "errored" ∨ s = "rejected" <;> simp [opStep, hs] at h
    rcases hs with hs | hs <;> subst hs <;> rw [← h] <;> decide
  | manualSkip =>
    left
    by_cases hs : s = "queued" <;> simp [opStep, hs] at h
    subst hs; rw [← h]; decide
  | manualExclude =>
    right
    simp [opStep] at h
    exact ⟨rfl, h.symm⟩
  | resetEncoding =>
    left
    by_cases hs : s = "encoding" <;> simp [opStep, hs] at h
    subst hs; rw [← h]; decide
  | exclusionBulk =>
    left
    by_cases hs : s = "queued" <;> simp [opStep, hs] at h
    subst hs; rw [← h]; decide

theorem status_closure_amended_witness :
    opStep .manualRetry ("errored") = some ("queued") ∧
    (allowedTransition ("errored") ("queued") = true ∨
      (FileOp.manualRetry = FileOp.manualExclude ∧ "queued" = "excluded")) :=
  ⟨by decide, status_closure_amended .manualRetry ("errored") ("queued") (by decide)⟩

/-- C7: a newly discovered file below the size floor is recorded as
`skipped` with reason `File under <N>MB minimum` and the probe tool is not
invoked for it. -/
theorem size_floor_skips_without_probe (gm : String → String → Bool)
    (settings : EncodingSettings) (filePath : String) (libraryId : Nat)
    (inp : ClassifyInput) (st : Store)
    (hnew : getFileByPath filePath st = none)
    (hsize : inp.fileSize < settings.min_file_size_mb * 1024 * 1024) :
    ∃ row : FileRow,
      (processFile gm settings filePath libraryId inp st).1.files
        = row :: st.files ∧
      row.file_path = filePath ∧
      row.status = "skipped" ∧
      row.skip_reason = some ("File under "
        ++ toString settings.min_file_size_mb ++ "MB minimum") ∧
      (processFile gm settings filePath libraryId inp st).2.2 = false := by
  refine ⟨(classifyNew gm settings filePath libraryId inp st).1, ?_⟩
  simp [processFile, hnew, classifyNew, hsize, createFile]

theorem size_floor_skips_without_probe_witness :
    getFileByPath ("/media/m/a.mkv") ({} : Store) = none ∧
    104857600 < (500 : Nat) * 1024 * 1024 ∧
    ∃ row : FileRow,
      (processFile noGlob {} ("/media/m/a.mkv") 1
        { fileSize := 104857600, fileName := "a.mkv", probe := .error ("x") }
        {}).1.files = row :: ({} : Store).files ∧
      row.file_path = "/media/m/a.mkv" ∧
      row.status = "skipped" ∧
      row.skip_reason = some ("File under "
        ++ toString (500 : Nat) ++ "MB minimum") ∧
      (processFile noGlob {} ("/media/m/a.mkv") 1
        { fileSize := 104857600, fileName := "a.mkv", probe := .error ("x") }
        {}).2.2 = false :=
  ⟨rfl, by decide,
    size_floor_skips_without_probe noGlob {} ("/media/m/a.mkv") 1
      { fileSize := 104857600, fileName := "a.mkv", probe := .error ("x") }
      {} rfl (by decide)⟩

/-- Every branch of the Classifier's decision ladder creates the row under
the classified path. -/
theorem classifyNew_file_path (gm : String → String → Bool)
    (settings : EncodingSettings) (filePath : String) (libraryId : Nat)
    (inp : ClassifyInput) (st : Store) :
    (classifyNew gm settings filePath libraryId inp st).1.file_path
      = filePath := by
  rcases hp : inp.probe with msg | md <;>
    by_cases h1 : inp.fileSize < settings.min_file_size_mb * 1024 * 1024 <;>
    by_cases h2 : (isExcluded gm filePath libraryId st).excluded = true <;>
    first
      | (by_cases h3 : md.isHevc = true <;> simp [classifyNew, hp, h1, h2, h3])
      | simp [classifyNew, hp, h1, h2]

/-- C8: the Classifier is idempotent — running `processFile` a second time
on the same inputs and state is a no-op: the store is unchanged and the
run reports `exists` without probing. -/
theorem classifier_idempotent (gm : String → String → Bool)
    (settings : EncodingSettings) (filePath : String) (libraryId : Nat)
    (inp : ClassifyInput) (st : Store) :
    processFile gm settings filePath libraryId inp
        (processFile gm settings filePath libraryId inp st).1
      = ((processFile gm settings filePath libraryId inp st).1,
          ClassifyRes.exists_, false) := by
  cases hfind : getFileByPath filePath st with
  | some f =>
    simp [processFile, hfind]
  | none =>
    have hpath := classifyNew_file_path gm settings filePath libraryId inp st
    have hfind2 :
        getFileByPath filePath
          { createFile (classifyNew gm settings filePath libraryId inp st).1 st
              with
            stats := updateTodayStats st.stats
              (classifyNew gm settings filePath libraryId inp st).2.2.1 }
        = some (classifyNew gm settings filePath libraryId inp st).1 := by
      simp [getFileByPath, createFile, List.find?, hpath]
    simp [processFile, hfind, hfind2]

/-- Per-event characterization of the stats delta: a delta counts one
processed file exactly for encoder-pipeline events (all of which end
`finished`, `rejected` or `errored`), and accounts space exactly for
finished outcomes. -/
theorem statEventDelta_characterization (e : StatEvent) :
    (statEventDelta e).total_files_processed
      = (if isEncoderTerminalCounted e then 1 else 0) ∧
    (statEventDelta e).total_space_saved = eventSpaceSaved e := by
  cases e with
  | scanSkipSmall =>
    simp [statEventDelta, isEncoderTerminalCounted, eventFinalStatus,
      eventSpaceSaved]
  | scanProbeError =>
    simp [statEventDelta, isEncoderTerminalCounted, eventFinalStatus,
      eventSpaceSaved]
  | scanSkipHevc =>
    simp [statEventDelta, isEncoderTerminalCounted, eventFinalStatus,
      eventSpaceSaved]
  | encodeRun f s =>
    obtain ⟨hmem, hproc, hspace⟩ := encodeFile_characterization f s
    constructor
    · rcases hmem with hf | hf | hf <;>
        simp [statEventDelta, isEncoderTerminalCounted, eventFinalStatus,
          hproc, hf]
    · simp [statEventDelta, eventSpaceSaved, hspace]

/-- Foldl form of the amended stats accounting, generalized over the
starting counters. -/
theorem applyStatEvents_fold (evts : List StatEvent) (acc : StatsRow) :
    ((evts.foldl (fun a e => updateTodayStats a (statEventDelta e))
        acc).total_files_processed
      = acc.total_files_processed + evts.countP isEncoderTerminalCounted) ∧
    ((evts.foldl (fun a e => updateTodayStats a (statEventDelta e))
        acc).total_space_saved
      = acc.total_space_saved + (evts.map eventSpaceSaved).sum) := by
  induction evts generalizing acc with
  | nil => simp
  | cons e rest ih =>
    obtain ⟨hp, hs⟩ := statEventDelta_characterization e
    obtain ⟨ihp, ihs⟩ := ih (updateTodayStats acc (statEventDelta e))
    constructor
    · rw [List.foldl_cons, ihp, List.countP_cons]
      simp [updateTodayStats, hp]
      split <;> omega
    · rw [List.foldl_cons, ihs, List.map_cons, List.sum_cons]
      simp [updateTodayStats, hs]
      omega

/-- C4 (amended): after any sequence of stats events,
`total_files_processed` equals the number of encoder-pipeline outcomes
(equivalently of `finished + rejected + errored` terminal writes, since
every pipeline run persists one of these) — scan-time skipped and errored
classifications do not count towards it — and `total_space_saved` equals
the sum over finished outcomes of `(original_size || 0) - new_size`; all
updates stay additive on the created day row. -/
theorem stats_additivity_amended (evts : List StatEvent) :
    (applyStatEvents evts).total_files_processed
      = evts.countP isEncoderTerminalCounted ∧
    (applyStatEvents evts).total_space_saved
      = (evts.map eventSpaceSaved).sum := by
  have h := applyStatEvents_fold evts {}
  simpa [applyStatEvents] using h

end Compressor
